import Mathlib

/-
Verification development for the capstats backfill pipeline.

The repository's backfill services (src/services/completeDataBackfillService.ts,
abbreviated CDB below, and src/services/dataBackfillService.ts, abbreviated DBS)
populate a relational store through SQL upserts and aggregate queries.  This
file gives a shallow embedding of those operations: a SQL table is a `List` of
row structures, an `INSERT ... ON CONFLICT (k) DO UPDATE SET ...` statement is
the `upsert` combinator below, and the aggregation SQL is translated into pure
Lean functions over the row lists.
-/

namespace CapStats

/-- Models a SQL `INSERT ... ON CONFLICT (key) DO UPDATE SET ...` statement on a
table with a unique constraint on `key`: if some row matches the new row's key,
every matching row is overwritten by `upd old new` (the `DO UPDATE SET` column
list); otherwise the new row is appended. -/
def upsert {α κ : Type} [DecidableEq κ] (key : α → κ) (upd : α → α → α)
    (tbl : List α) (r : α) : List α :=
  if tbl.any (fun t => decide (key t = key r)) then
    tbl.map (fun t => if key t = key r then upd t r else t)
  else tbl ++ [r]

/-- Models the check-then-insert strategy used by the CDB per-game stat
inserts: `SELECT COUNT(*) ... WHERE key = $k`, and a plain `INSERT` only when
the count is zero. -/
def insertIfAbsent {α κ : Type} [DecidableEq κ] (key : α → κ)
    (tbl : List α) (r : α) : List α :=
  if tbl.any (fun t => decide (key t = key r)) then tbl else tbl ++ [r]

/-- Count of rows in `tbl` whose key equals `k` (the SQL
`SELECT COUNT(*) ... WHERE key = k`). -/
def countKey {α κ : Type} [DecidableEq κ] (key : α → κ) (tbl : List α) (k : κ) : Nat :=
  tbl.countP (fun t => decide (key t = k))

/-! ## Persisted row shapes (§3 of the spec, from the services' INSERT column lists) -/

/-- A row of the `teams` table: columns of
`INSERT INTO teams (id, name, abbreviation, city, division, conference)`. -/
structure TeamRow where
  id : Int
  name : String
  abbreviation : String
  city : String
  division : String
  conference : String
deriving DecidableEq

/-- A row of the `players` table: columns of the CDB
`INSERT INTO players (id, team_id, first_name, last_name, position, jersey_number)`. -/
structure PlayerRow where
  id : Int
  team_id : Int
  first_name : String
  last_name : String
  position : String
  jersey_number : Option Int
deriving DecidableEq

/-- A row of the `player_game_stats` table, with the full 20-column list written
by `DBS.insertPlayerGameStats`.  The CDB variant `insertPlayerGameStat` writes
the first 12 of these columns; the remaining columns then take their defaults. -/
structure PGSRow where
  game_id : Int
  player_id : Int
  team_id : Int
  goals : Int
  assists : Int
  points : Int
  plus_minus : Int
  penalty_minutes : Int
  shots : Int
  hits : Int
  blocks : Int
  time_on_ice_seconds : Int
  powerplay_time_seconds : Int
  shorthanded_time_seconds : Int
  corsi_for : Int
  corsi_against : Int
  expected_goals : Rat
  expected_assists : Rat
  individual_corsi_for : Int
  individual_fenwick_for : Int
deriving DecidableEq

/-- Natural key of `player_game_stats`: the `(game_id, player_id)` pair of the
`ON CONFLICT (game_id, player_id)` clause and of the CDB existence check. -/
def pgsKey (r : PGSRow) : Int × Int := (r.game_id, r.player_id)

/-! ## completeDataBackfillService.ts (CDB) -/

namespace CDB

/-- A row of the `games` table as written by the CDB service
(`INSERT INTO games (id, season, game_type, date_time, home_team_id,
away_team_id, home_score, away_score, game_state, venue)`; this variant does
not write a `period` column).  `home_team_id`/`away_team_id` mirror
`game.homeTeam?.id`, which can be absent, hence `Option`. -/
structure GameRow where
  id : Int
  season : String
  game_type : String
  date_time : Option String
  home_team_id : Option Int
  away_team_id : Option Int
  home_score : Int
  away_score : Int
  game_state : String
  venue : String
deriving DecidableEq

/-- One entry of the `standings` array returned by the NHL standings endpoint,
restricted to the fields `insertTeam` reads.  `Option` models an absent or
null JSON field (the source defaults it with `|| 'Unknown'` etc.). -/
structure Standing where
  teamAbbrevDefault : Option String
  teamNameDefault : Option String
  placeNameDefault : Option String
  divisionName : Option String
  conferenceName : Option String
deriving DecidableEq

/-- The static abbreviation-to-id table of `getTeamIdFromAbbrev`. -/
def teamIdMapping : List (String × Int) :=
  [("NJD", 1), ("NYI", 2), ("NYR", 3), ("PHI", 4), ("PIT", 5), ("BOS", 6),
   ("BUF", 7), ("MTL", 8), ("OTT", 9), ("TOR", 10), ("CAR", 12), ("FLA", 13),
   ("TBL", 14), ("WSH", 15), ("CHI", 16), ("DET", 17), ("NSH", 18), ("STL", 19),
   ("CGY", 20), ("COL", 21), ("EDM", 22), ("VAN", 23), ("ANA", 24), ("DAL", 25),
   ("LAK", 26), ("SJS", 27), ("CBJ", 28), ("MIN", 29), ("WPG", 30), ("ARI", 53),
   ("VGK", 54), ("SEA", 55)]

/-- `getTeamIdFromAbbrev`: looks the abbreviation up in the static mapping and
falls back to 999 when it is unknown. -/
def getTeamIdFromAbbrev (ab : String) : Int :=
  ((teamIdMapping.find? (fun p => decide (p.1 = ab))).map Prod.snd).getD 999

/-- The row built by `insertTeam` from a standings entry, with the source's
defaults (`'UNK'`, `'Unknown'`) for missing fields and the id derived through
`getTeamIdFromAbbrev`. -/
def standingToTeamRow (s : Standing) : TeamRow :=
  let ab := s.teamAbbrevDefault.getD "UNK"
  { id := getTeamIdFromAbbrev ab
    name := s.teamNameDefault.getD "Unknown"
    abbreviation := ab
    city := s.placeNameDefault.getD "Unknown"
    division := s.divisionName.getD "Unknown"
    conference := s.conferenceName.getD "Unknown" }

/-- The `DO UPDATE SET` column list of `insertTeam`: name, abbreviation,
division and conference are overwritten; `city` is not in the update list. -/
def updTeam (t r : TeamRow) : TeamRow :=
  { t with name := r.name, abbreviation := r.abbreviation,
           division := r.division, conference := r.conference }

/-- `insertTeam`: `INSERT INTO teams ... ON CONFLICT (id) DO UPDATE SET ...`. -/
def insertTeam (tbl : List TeamRow) (s : Standing) : List TeamRow :=
  upsert (fun t => t.id) updTeam tbl (standingToTeamRow s)

/-- A raw skater/goalie summary record, restricted to the fields
`insertPlayer` reads. -/
structure RawPlayer where
  playerId : Int
  teamId : Option Int
  firstName : Option String
  lastName : Option String
  position : Option String
  sweaterNumber : Option Int
deriving DecidableEq

/-- The row built by `insertPlayer`, with the source's defaults
(`teamId || 1`, `'Unknown'`, `'F'`, `sweaterNumber || null`). -/
def rawPlayerToRow (p : RawPlayer) : PlayerRow :=
  { id := p.playerId
    team_id := p.teamId.getD 1
    first_name := p.firstName.getD "Unknown"
    last_name := p.lastName.getD "Unknown"
    position := p.position.getD "F"
    jersey_number := p.sweaterNumber }

/-- The `DO UPDATE SET` column list of `insertPlayer`: team_id, position and
jersey_number. -/
def updPlayer (t r : PlayerRow) : PlayerRow :=
  { t with team_id := r.team_id, position := r.position,
           jersey_number := r.jersey_number }

/-- `insertPlayer`: `INSERT INTO players ... ON CONFLICT (id) DO UPDATE SET ...`. -/
def insertPlayer (tbl : List PlayerRow) (p : RawPlayer) : List PlayerRow :=
  upsert (fun t => t.id) updPlayer tbl (rawPlayerToRow p)

/-- The `DO UPDATE SET` column list of `insertGame`: home_score, away_score and
game_state. -/
def updGame (t r : GameRow) : GameRow :=
  { t with home_score := r.home_score, away_score := r.away_score,
           game_state := r.game_state }

/-- `insertGame`: `INSERT INTO games ... ON CONFLICT (id) DO UPDATE SET ...`,
applied to the row the service maps from the schedule record. -/
def insertGame (tbl : List GameRow) (g : GameRow) : List GameRow :=
  upsert (fun t => t.id) updGame tbl g

/-- `insertPlayerGameStat`: the CDB check-then-insert variant — an existence
`SELECT COUNT(*)` on `(game_id, player_id)` followed by a plain `INSERT` only
when the count is zero (an existing row is left untouched). -/
def insertPlayerGameStat (tbl : List PGSRow) (r : PGSRow) : List PGSRow :=
  insertIfAbsent pgsKey tbl r

/-- A row of the `team_game_stats` table as written by the CDB service
(`INSERT INTO team_game_stats (game_id, team_id, is_home, goals, shots, hits)`). -/
structure TGSRow where
  game_id : Int
  team_id : Int
  is_home : Bool
  goals : Int
  shots : Int
  hits : Int
deriving DecidableEq

/-- The hardcoded 32-team fallback list of `insertFallbackTeams`. -/
def fallbackTeams : List TeamRow :=
  [⟨1, "New Jersey Devils", "NJD", "New Jersey", "Metropolitan", "Eastern"⟩,
   ⟨2, "New York Islanders", "NYI", "New York", "Metropolitan", "Eastern"⟩,
   ⟨3, "New York Rangers", "NYR", "New York", "Metropolitan", "Eastern"⟩,
   ⟨4, "Philadelphia Flyers", "PHI", "Philadelphia", "Metropolitan", "Eastern"⟩,
   ⟨5, "Pittsburgh Penguins", "PIT", "Pittsburgh", "Metropolitan", "Eastern"⟩,
   ⟨6, "Boston Bruins", "BOS", "Boston", "Atlantic", "Eastern"⟩,
   ⟨7, "Buffalo Sabres", "BUF", "Buffalo", "Atlantic", "Eastern"⟩,
   ⟨8, "Montreal Canadiens", "MTL", "Montreal", "Atlantic", "Eastern"⟩,
   ⟨9, "Ottawa Senators", "OTT", "Ottawa", "Atlantic", "Eastern"⟩,
   ⟨10, "Toronto Maple Leafs", "TOR", "Toronto", "Atlantic", "Eastern"⟩,
   ⟨12, "Carolina Hurricanes", "CAR", "Carolina", "Metropolitan", "Eastern"⟩,
   ⟨13, "Florida Panthers", "FLA", "Florida", "Atlantic", "Eastern"⟩,
   ⟨14, "Tampa Bay Lightning", "TBL", "Tampa Bay", "Atlantic", "Eastern"⟩,
   ⟨15, "Washington Capitals", "WSH", "Washington", "Metropolitan", "Eastern"⟩,
   ⟨16, "Chicago Blackhawks", "CHI", "Chicago", "Central", "Western"⟩,
   ⟨17, "Detroit Red Wings", "DET", "Detroit", "Atlantic", "Eastern"⟩,
   ⟨18, "Nashville Predators", "NSH", "Nashville", "Central", "Western"⟩,
   ⟨19, "St. Louis Blues", "STL", "St. Louis", "Central", "Western"⟩,
   ⟨20, "Calgary Flames", "CGY", "Calgary", "Pacific", "Western"⟩,
   ⟨21, "Colorado Avalanche", "COL", "Colorado", "Central", "Western"⟩,
   ⟨22, "Edmonton Oilers", "EDM", "Edmonton", "Pacific", "Western"⟩,
   ⟨23, "Vancouver Canucks", "VAN", "Vancouver", "Pacific", "Western"⟩,
   ⟨24, "Anaheim Ducks", "ANA", "Anaheim", "Pacific", "Western"⟩,
   ⟨25, "Dallas Stars", "DAL", "Dallas", "Central", "Western"⟩,
   ⟨26, "Los Angeles Kings", "LAK", "Los Angeles", "Pacific", "Western"⟩,
   ⟨27, "San Jose Sharks", "SJS", "San Jose", "Pacific", "Western"⟩,
   ⟨28, "Columbus Blue Jackets", "CBJ", "Columbus", "Metropolitan", "Eastern"⟩,
   ⟨29, "Minnesota Wild", "MIN", "Minnesota", "Central", "Western"⟩,
   ⟨30, "Winnipeg Jets", "WPG", "Winnipeg", "Central", "Western"⟩,
   ⟨53, "Arizona Coyotes", "ARI", "Arizona", "Central", "Western"⟩,
   ⟨54, "Vegas Golden Knights", "VGK", "Las Vegas", "Pacific", "Western"⟩,
   ⟨55, "Seattle Kraken", "SEA", "Seattle", "Pacific", "Western"⟩]

/-- The `DO UPDATE SET` column list of the fallback team upsert
(`ON CONFLICT (id) DO UPDATE SET name = EXCLUDED.name` — only the name). -/
def updTeamNameOnly (t r : TeamRow) : TeamRow := { t with name := r.name }

/-- `insertFallbackTeams`: upserts each of the 32 hardcoded teams in order. -/
def insertFallbackTeams (tbl : List TeamRow) : List TeamRow :=
  fallbackTeams.foldl (fun acc r => upsert (fun t => t.id) updTeamNameOnly acc r) tbl

/-- Possible results of the live standings fetch in `backfillAllTeams`:
the fetch or JSON decode threw, the body decoded but has no `standings`
field, or the body has a `standings` array (possibly empty — an empty array
is truthy in JavaScript and takes the live branch). -/
inductive FetchStandings where
  | failed : FetchStandings
  | noStandingsField : FetchStandings
  | standings : List Standing → FetchStandings
deriving DecidableEq

/-- `backfillAllTeams`: inserts each standings entry through `insertTeam` when
the fetch succeeded and the body has a `standings` field, and otherwise falls
back to `insertFallbackTeams`. -/
def backfillAllTeams (tbl : List TeamRow) (fetch : FetchStandings) : List TeamRow :=
  match fetch with
  | .failed => insertFallbackTeams tbl
  | .noStandingsField => insertFallbackTeams tbl
  | .standings l => l.foldl insertTeam tbl

/-- The hardcoded Capitals roster of `insertFallbackCapitalsPlayers`
(id, first name, last name, position, jersey number), all upserted with
`team_id = CAPITALS_TEAM_ID = 15`. -/
def fallbackCapitalsPlayers : List PlayerRow :=
  [⟨8471214, 15, "Alexander", "Ovechkin", "LW", some 8⟩,
   ⟨8470638, 15, "Nicklas", "Backstrom", "C", some 19⟩,
   ⟨8476453, 15, "John", "Carlson", "D", some 74⟩,
   ⟨8476872, 15, "T.J.", "Oshie", "RW", some 77⟩,
   ⟨8477493, 15, "Evgeny", "Kuznetsov", "C", some 92⟩,
   ⟨8477998, 15, "Tom", "Wilson", "RW", some 43⟩,
   ⟨8478402, 15, "Charlie", "Lindgren", "G", some 79⟩,
   ⟨8480817, 15, "Dylan", "Strome", "C", some 17⟩,
   ⟨8481522, 15, "Anthony", "Mantha", "RW", some 39⟩,
   ⟨8482073, 15, "Connor", "McMichael", "C", some 24⟩]

/-- `insertFallbackCapitalsPlayers`: upserts the 10 hardcoded players
(`ON CONFLICT (id) DO UPDATE SET team_id, position, jersey_number`). -/
def insertFallbackCapitalsPlayers (tbl : List PlayerRow) : List PlayerRow :=
  fallbackCapitalsPlayers.foldl (fun acc r => upsert (fun t => t.id) updPlayer acc r) tbl

/-- The five hardcoded sample games of `insertSampleCapitalsGames`, inserted
with the given season, game_type `'02'` and game_state `'Final'`. -/
def sampleCapitalsGames (season : String) : List GameRow :=
  [⟨2024020500, season, "02", some "2024-12-20", some 15, some 3, 4, 2, "Final", "Capital One Arena"⟩,
   ⟨2024020501, season, "02", some "2024-12-18", some 6, some 15, 3, 1, "Final", "TD Garden"⟩,
   ⟨2024020502, season, "02", some "2024-12-15", some 15, some 5, 2, 3, "Final", "Capital One Arena"⟩,
   ⟨2024020503, season, "02", some "2024-12-12", some 13, some 15, 1, 4, "Final", "FLA Live Arena"⟩,
   ⟨2024020504, season, "02", some "2024-12-10", some 15, some 14, 5, 2, "Final", "Capital One Arena"⟩]

/-- `insertSampleCapitalsGames`: inserts the five sample games with
`ON CONFLICT (id) DO NOTHING`. -/
def insertSampleCapitalsGames (tbl : List GameRow) (season : String) : List GameRow :=
  (sampleCapitalsGames season).foldl (fun acc r => insertIfAbsent (fun t => t.id) acc r) tbl

/-- The two hardcoded team-game-stat rows of `insertSampleTeamStats`. -/
def sampleTeamStats : List TGSRow :=
  [⟨2024020500, 15, true, 4, 32, 18⟩,
   ⟨2024020500, 3, false, 2, 28, 22⟩]

/-- `insertSampleTeamStats`: a `SELECT COUNT(*)` existence check on
`(game_id, team_id)` followed by a plain `INSERT` when absent. -/
def insertSampleTeamStats (tbl : List TGSRow) : List TGSRow :=
  sampleTeamStats.foldl
    (fun acc r => insertIfAbsent (fun t => (t.game_id, t.team_id)) acc r) tbl

/-- The four tables touched by `startTestBackfill`. -/
structure Store where
  teams : List TeamRow
  players : List PlayerRow
  games : List GameRow
  team_game_stats : List TGSRow
deriving DecidableEq

/-- The store before any backfill run. -/
def emptyStore : Store := ⟨[], [], [], []⟩

/-- `startTestBackfill`: fallback teams, then fallback Capitals players, then
the sample games for `seasons[0]`, then the sample team stats.  The source
indexes `seasons[0]` without a guard; `headD` supplies the unused default. -/
def startTestBackfill (st : Store) (seasons : List String) : Store :=
  { teams := insertFallbackTeams st.teams
    players := insertFallbackCapitalsPlayers st.players
    games := insertSampleCapitalsGames st.games (seasons.headD "")
    team_game_stats := insertSampleTeamStats st.team_game_stats }

end CDB

/-! ## dataBackfillService.ts (DBS) -/

namespace DBS

/-- A row of the `games` table as written by `insertCompleteGameData`
(11 columns, including `period`, defaulted to 3 by `game.period || 3`). -/
structure GameRow where
  id : Int
  season : String
  game_type : String
  date_time : Option String
  home_team_id : Option Int
  away_team_id : Option Int
  home_score : Int
  away_score : Int
  period : Int
  game_state : String
  venue : String
deriving DecidableEq

/-- The `DO UPDATE SET` column list of `insertPlayerGameStats`
(`ON CONFLICT (game_id, player_id)`): every non-key column is overwritten. -/
def updPGS (t r : PGSRow) : PGSRow :=
  { t with team_id := r.team_id, goals := r.goals, assists := r.assists,
           points := r.points, plus_minus := r.plus_minus,
           penalty_minutes := r.penalty_minutes, shots := r.shots,
           hits := r.hits, blocks := r.blocks,
           time_on_ice_seconds := r.time_on_ice_seconds,
           powerplay_time_seconds := r.powerplay_time_seconds,
           shorthanded_time_seconds := r.shorthanded_time_seconds,
           corsi_for := r.corsi_for, corsi_against := r.corsi_against,
           expected_goals := r.expected_goals,
           expected_assists := r.expected_assists,
           individual_corsi_for := r.individual_corsi_for,
           individual_fenwick_for := r.individual_fenwick_for }

/-- `insertPlayerGameStats`: `INSERT INTO player_game_stats ...
ON CONFLICT (game_id, player_id) DO UPDATE SET <all non-key columns>`. -/
def insertPlayerGameStats (tbl : List PGSRow) (r : PGSRow) : List PGSRow :=
  upsert pgsKey updPGS tbl r

/-- A row of the `player_season_stats` table as produced by the
`calculatePlayerSeasonStats` aggregation query. -/
structure PlayerSeasonRow where
  player_id : Int
  season : String
  team_id : Int
  games_played : Nat
  goals : Int
  assists : Int
  points : Int
  plus_minus : Int
  penalty_minutes : Int
  shots : Int
  shooting_percentage : Rat
  time_on_ice_total_seconds : Int
  time_on_ice_avg_seconds : Rat
  powerplay_time_total_seconds : Int
  shorthanded_time_total_seconds : Int
deriving DecidableEq

/-- The `FROM player_game_stats pgs JOIN games g ON pgs.game_id = g.id WHERE
g.season = $1` part of the aggregation query.  `games.id` is the table's
primary key, so the join keeps exactly the stat rows whose game is in the
season. -/
def rowsInSeason (pgs : List PGSRow) (games : List GameRow) (season : String) :
    List PGSRow :=
  pgs.filter (fun r =>
    games.any (fun g => decide (g.id = r.game_id) && decide (g.season = season)))

/-- The `GROUP BY player_id, team_id` key list: the distinct
`(player_id, team_id)` pairs among the joined rows. -/
def groupKeys (rows : List PGSRow) : List (Int × Int) :=
  (rows.map (fun r => (r.player_id, r.team_id))).dedup

/-- The rows of one `GROUP BY player_id, team_id` group. -/
def groupRows (rows : List PGSRow) (p t : Int) : List PGSRow :=
  rows.filter (fun r => decide (r.player_id = p) && decide (r.team_id = t))

/-- The SELECT list of the aggregation query applied to one group:
`COUNT(*)`, the `SUM`s, the shooting-percentage `CASE` (`SUM(goals)/SUM(shots)
* 100` when `SUM(shots) > 0`, else 0), and `AVG(time_on_ice_seconds)`. -/
def mkSeasonRow (season : String) (p t : Int) (rs : List PGSRow) : PlayerSeasonRow :=
  { player_id := p
    season := season
    team_id := t
    games_played := rs.length
    goals := (rs.map (fun r => r.goals)).sum
    assists := (rs.map (fun r => r.assists)).sum
    points := (rs.map (fun r => r.points)).sum
    plus_minus := (rs.map (fun r => r.plus_minus)).sum
    penalty_minutes := (rs.map (fun r => r.penalty_minutes)).sum
    shots := (rs.map (fun r => r.shots)).sum
    shooting_percentage :=
      if 0 < (rs.map (fun r => r.shots)).sum then
        ((((rs.map (fun r => r.goals)).sum : Int) : Rat)
          / (((rs.map (fun r => r.shots)).sum : Int) : Rat)) * 100
      else 0
    time_on_ice_total_seconds := (rs.map (fun r => r.time_on_ice_seconds)).sum
    time_on_ice_avg_seconds :=
      (((rs.map (fun r => r.time_on_ice_seconds)).sum : Int) : Rat) / ((rs.length : Nat) : Rat)
    powerplay_time_total_seconds := (rs.map (fun r => r.powerplay_time_seconds)).sum
    shorthanded_time_total_seconds := (rs.map (fun r => r.shorthanded_time_seconds)).sum }

/-- `calculatePlayerSeasonStats`: the rows emitted by the aggregation query for
one season (one row per distinct `(player_id, team_id)` group among the
season's per-game rows). -/
def calculatePlayerSeasonStats (pgs : List PGSRow) (games : List GameRow)
    (season : String) : List PlayerSeasonRow :=
  (groupKeys (rowsInSeason pgs games season)).map
    (fun k => mkSeasonRow season k.1 k.2 (groupRows (rowsInSeason pgs games season) k.1 k.2))

/-- A row of the `team_game_stats` table as written by `insertTeamGameStats`
(21 columns).  `calculateTeamSeasonStats` reads `team_id`, `is_home`, `goals`
and `game_id` from it. -/
structure TGSRow where
  game_id : Int
  team_id : Int
  is_home : Bool
  goals : Int
  assists : Int
  shots : Int
  hits : Int
  blocks : Int
  penalty_minutes : Int
  powerplay_goals : Int
  powerplay_opportunities : Int
  faceoff_wins : Int
  faceoff_attempts : Int
  corsi_for : Int
  corsi_against : Int
  fenwick_for : Int
  fenwick_against : Int
  expected_goals_for : Rat
  expected_goals_against : Rat
  high_danger_shots_for : Int
  high_danger_shots_against : Int
deriving DecidableEq

/-- The join of `calculateTeamSeasonStats`'s record query: the team's
`team_game_stats` rows paired with their `games` row, restricted to the season
and to `game_state = 'Final'`. -/
def tgsGameJoin (tgs : List TGSRow) (games : List GameRow) (teamId : Int)
    (season : String) : List (TGSRow × GameRow) :=
  (tgs.filter (fun t => decide (t.team_id = teamId))).flatMap
    (fun t => (games.filter (fun g =>
        decide (g.id = t.game_id) && decide (g.season = season)
          && decide (g.game_state = "Final"))).map (fun g => (t, g)))

/-- The `wins` CASE of the record query: the team's own score exceeds the
opponent's, home/away aware. -/
def winCase (p : TGSRow × GameRow) : Int :=
  if (p.1.is_home ∧ p.2.home_score > p.2.away_score)
      ∨ (¬ p.1.is_home ∧ p.2.away_score > p.2.home_score) then 1 else 0

/-- The `losses` CASE of the record query, with SQL operator precedence
(`AND` binds tighter than `OR`): `(is_home AND home < away) OR
((NOT is_home AND away < home) AND period <= 3)` — the `period <= 3` guard
only applies to the away disjunct. -/
def lossCase (p : TGSRow × GameRow) : Int :=
  if (p.1.is_home ∧ p.2.home_score < p.2.away_score)
      ∨ ((¬ p.1.is_home ∧ p.2.away_score < p.2.home_score) ∧ p.2.period ≤ 3) then 1 else 0

/-- The `overtime_losses` CASE of the record query, with SQL operator
precedence: `(is_home AND home < away) OR ((NOT is_home AND away < home) AND
period > 3)` — the `period > 3` guard only applies to the away disjunct. -/
def otlCase (p : TGSRow × GameRow) : Int :=
  if (p.1.is_home ∧ p.2.home_score < p.2.away_score)
      ∨ ((¬ p.1.is_home ∧ p.2.away_score < p.2.home_score) ∧ p.2.period > 3) then 1 else 0

/-- The `goals_against` CASE: the opponent's score, home/away aware. -/
def goalsAgainstCase (p : TGSRow × GameRow) : Int :=
  if p.1.is_home then p.2.away_score else p.2.home_score

/-- The result row of `calculateTeamSeasonStats`'s record query for one team
and season. -/
structure TeamSeasonRecord where
  games_played : Nat
  wins : Int
  losses : Int
  overtime_losses : Int
  goals_for : Int
  goals_against : Int
deriving DecidableEq

/-- The record query of `calculateTeamSeasonStats` (COUNT and the SUM/CASE
aggregates over the team's joined final games of the season). -/
def teamSeasonRecord (tgs : List TGSRow) (games : List GameRow) (teamId : Int)
    (season : String) : TeamSeasonRecord :=
  let rows := tgsGameJoin tgs games teamId season
  { games_played := rows.length
    wins := (rows.map winCase).sum
    losses := (rows.map lossCase).sum
    overtime_losses := (rows.map otlCase).sum
    goals_for := (rows.map (fun p => p.1.goals)).sum
    goals_against := (rows.map goalsAgainstCase).sum }

/-- A row of the `team_season_stats` table as inserted by
`calculateTeamSeasonStats`. -/
structure TeamSeasonRow where
  team_id : Int
  season : String
  games_played : Nat
  wins : Int
  losses : Int
  overtime_losses : Int
  points : Int
  goals_for : Int
  goals_against : Int
  goal_differential : Int
deriving DecidableEq

/-- The row `calculateTeamSeasonStats` upserts for a team whose record has
`games_played > 0`: `points = wins * 2 + overtime_losses` and
`goal_differential = goals_for - goals_against`. -/
def teamSeasonRowOf (teamId : Int) (season : String) (rec : TeamSeasonRecord) :
    TeamSeasonRow :=
  { team_id := teamId
    season := season
    games_played := rec.games_played
    wins := rec.wins
    losses := rec.losses
    overtime_losses := rec.overtime_losses
    points := rec.wins * 2 + rec.overtime_losses
    goals_for := rec.goals_for
    goals_against := rec.goals_against
    goal_differential := rec.goals_for - rec.goals_against }

/-- `calculateTeamSeasonStats`: for every team id, runs the record query and,
when the team played at least one qualifying game, upserts the season row
(`ON CONFLICT (team_id, season) DO UPDATE SET <all non-key columns>`). -/
def calculateTeamSeasonStats (teamIds : List Int) (tgs : List TGSRow)
    (games : List GameRow) (season : String) (prev : List TeamSeasonRow) :
    List TeamSeasonRow :=
  teamIds.foldl
    (fun acc teamId =>
      let record := teamSeasonRecord tgs games teamId season
      if 0 < record.games_played then
        upsert (fun t => (t.team_id, t.season))
          (fun t r => { r with team_id := t.team_id, season := t.season })
          acc (teamSeasonRowOf teamId season record)
      else acc)
    prev

end DBS

/-! ## Stage orchestration of CDB.startCompleteBackfill -/

namespace CDB

/-- Outcome of one non-foundational stage body: it either completes or throws
with a message. -/
inductive StageOutcome where
  | ok : StageOutcome
  | fail : String → StageOutcome
deriving DecidableEq

/-- The error/completed lists of the service's Progress record. -/
structure Progress where
  errors : List String
  completed : List String
deriving DecidableEq

/-- One non-foundational stage of `startCompleteBackfill`: the stage body is
wrapped in try/catch, so on success the stage label is pushed onto
`progress.completed` and on an exception the message
`label ++ ": " ++ errorMessage` is pushed onto `progress.errors` and control
returns to the orchestrator. -/
def runStage (p : Progress) (stage : String × StageOutcome) : Progress :=
  match stage.2 with
  | .ok => { p with completed := p.completed ++ [stage.1] }
  | .fail m => { p with errors := p.errors ++ [stage.1 ++ ": " ++ m] }

/-- The labels of the non-foundational stages, in the order
`startCompleteBackfill` runs them (each block loops over the seasons). -/
def stageLabels (seasons : List String) : List String :=
  (seasons.map (fun s => "Players for " ++ s)) ++
  (seasons.map (fun s => "Games for " ++ s)) ++
  (seasons.map (fun s => "Player game stats for " ++ s)) ++
  (seasons.map (fun s => "Team game stats for " ++ s)) ++
  (seasons.map (fun s => "Goalie stats for " ++ s)) ++
  (seasons.map (fun s => "Season stats for " ++ s)) ++
  (seasons.map (fun s => "Shot data for " ++ s)) ++
  (seasons.map (fun s => "Advanced stats for " ++ s))

/-- Outcome of the foundational teams stage: the live fetch succeeded, the
fallback insert succeeded after a failed fetch, or the fallback insert itself
threw (the only case that escapes the stage and aborts the run). -/
inductive TeamsOutcome where
  | liveOk : TeamsOutcome
  | fallbackOk : TeamsOutcome
  | fatal : String → TeamsOutcome
deriving DecidableEq

/-- Result of one `startCompleteBackfill` invocation: the final Progress
record, whether `generateFinalReport` ran, and the exception the call
re-threw, if any. -/
structure RunResult where
  progress : Progress
  reportGenerated : Bool
  thrown : Option String
deriving DecidableEq

/-- The control flow of `startCompleteBackfill`: the teams stage runs first
(pushing `'All NHL teams'` or `'Teams (fallback)'`); if it throws, the outer
catch pushes `'Complete backfill failed: ...'` and re-throws before the report
is generated.  Otherwise every non-foundational stage runs in order through
its own try/catch wrapper and the final report is generated. -/
def startCompleteBackfill (seasons : List String) (teams : TeamsOutcome)
    (outcomes : List StageOutcome) : RunResult :=
  match teams with
  | .fatal m =>
      { progress := { errors := ["Complete backfill failed: " ++ m], completed := [] }
        reportGenerated := false
        thrown := some m }
  | .liveOk =>
      { progress := ((stageLabels seasons).zip outcomes).foldl runStage
          { errors := [], completed := ["All NHL teams"] }
        reportGenerated := true
        thrown := none }
  | .fallbackOk =>
      { progress := ((stageLabels seasons).zip outcomes).foldl runStage
          { errors := [], completed := ["Teams (fallback)"] }
        reportGenerated := true
        thrown := none }

/-- Result of one call to the `startCompleteBackfill` entry point as seen by
the caller: completed normally, threw the given stage-fatal error, or was
rejected by the `isRunning` guard with the `'Backfill already in progress'`
conflict error. -/
inductive EntryResult where
  | completed : EntryResult
  | threw : String → EntryResult
  | rejectedAlreadyRunning : EntryResult
deriving DecidableEq

/-- Outcome of the body of one admitted backfill run: it resolves or throws. -/
inductive RunOutcome where
  | success : RunOutcome
  | failure : String → RunOutcome
deriving DecidableEq

/-- The `isRunning` guard discipline of `startCompleteBackfill` (and
`startTestBackfill`): if the flag is set the call throws the conflict error
without touching the flag; otherwise the flag is set, the body runs, and the
`finally` block clears the flag whether the body resolved or threw. -/
def backfillEntry (isRunning : Bool) (o : RunOutcome) : Bool × EntryResult :=
  if isRunning then (isRunning, .rejectedAlreadyRunning)
  else
    match o with
    | .success => (false, .completed)
    | .failure m => (false, .threw m)

/-- A sequence of entry-point invocations on one service instance, threading
the `isRunning` flag, returning the final flag and each call's result. -/
def runBackfillSequence (isRunning : Bool) (os : List RunOutcome) :
    Bool × List EntryResult :=
  match os with
  | [] => (isRunning, [])
  | o :: rest =>
      let step := backfillEntry isRunning o
      let tail := runBackfillSequence step.1 rest
      (tail.1, step.2 :: tail.2)

end CDB

/-! ## JavaScript numeric layer (CDB/DBS utility methods) -/

/-- A JavaScript number restricted to the integer values these services
produce, plus `NaN`. -/
inductive JSNum where
  | nan : JSNum
  | val : Int → JSNum
deriving DecidableEq

/-- JavaScript `+` on numbers: `NaN` propagates. -/
def jsAdd : JSNum → JSNum → JSNum
  | .val a, .val b => .val (a + b)
  | _, _ => .nan

/-- JavaScript `*` on numbers: `NaN` propagates. -/
def jsMul : JSNum → JSNum → JSNum
  | .val a, .val b => .val (a * b)
  | _, _ => .nan

/-- Decimal value of a digit list. -/
def digitsVal (l : List Char) : Nat :=
  l.foldl (fun acc c => acc * 10 + (c.toNat - 48)) 0

/-- Models the JavaScript `parseInt` builtin in base 10: leading spaces are
skipped, an optional sign is read, then the longest leading run of digits; if
that run is empty the result is `NaN`. -/
def parseIntJS (s : String) : JSNum :=
  let cs := s.toList.dropWhile (fun c => decide (c = ' '))
  let signed : Int × List Char :=
    match cs with
    | '-' :: rest => (-1, rest)
    | '+' :: rest => (1, rest)
    | _ => (1, cs)
  let digits := signed.2.takeWhile (fun c => c.isDigit)
  if digits.isEmpty then .nan
  else .val (signed.1 * (digitsVal digits : Int))

/-- Splits a character list at every occurrence of `sep`, keeping empty
pieces — the semantics of the JavaScript `String.prototype.split` with a
one-character separator. -/
def splitChar (sep : Char) : List Char → List (List Char)
  | [] => [[]]
  | c :: rest =>
      let r := splitChar sep rest
      if c = sep then [] :: r
      else
        match r with
        | [] => [[c]]
        | h :: t => (c :: h) :: t

/-- The JavaScript `s.split(sep)` for a one-character separator. -/
def jsSplit (s : String) (sep : Char) : List String :=
  (splitChar sep s.toList).map (fun l => String.mk l)

/-- `parseTimeToSeconds` (identical in CDB and DBS): a missing/empty time
string gives 0; a string splitting on `':'` into exactly two parts gives
`parseInt(parts[0]) * 60 + parseInt(parts[1])`; any other shape gives 0. -/
def parseTimeToSeconds (timeString : Option String) : JSNum :=
  match timeString with
  | none => .val 0
  | some s =>
      match jsSplit s ':' with
      | [m, sec] => jsAdd (jsMul (parseIntJS m) (.val 60)) (parseIntJS sec)
      | _ => .val 0

/-- The `x || 0` defaulting idiom applied to count fields: an absent/null
field, `NaN`, and `0` are all falsy and give 0; any other number passes
through. -/
def orZero (x : Option JSNum) : JSNum :=
  match x with
  | none => .val 0
  | some .nan => .val 0
  | some (.val n) => if n = 0 then .val 0 else .val n

/-- A time-string field whose shape the `parseTimeToSeconds` happy paths
cover: absent, not of the two-part `MM:SS` shape, or two parts that both
parse as integers. -/
def timeFieldUsable : Option String → Bool
  | none => true
  | some s =>
      match jsSplit s ':' with
      | [m, sec] => !(decide (parseIntJS m = .nan)) && !(decide (parseIntJS sec = .nan))
      | _ => true

/-! ## Write sequences against player_game_stats -/

/-- One write against the `player_game_stats` table, by either variant: the
DBS `ON CONFLICT DO UPDATE` upsert or the CDB check-then-insert. -/
inductive PGSWrite where
  | viaUpsert : PGSRow → PGSWrite
  | viaCheckInsert : PGSRow → PGSWrite
deriving DecidableEq

/-- Apply one write to the table. -/
def applyPGSWrite (tbl : List PGSRow) : PGSWrite → List PGSRow
  | .viaUpsert r => DBS.insertPlayerGameStats tbl r
  | .viaCheckInsert r => CDB.insertPlayerGameStat tbl r

/-- Apply a whole sequence of backfill writes, in order. -/
def runPGSWrites (tbl : List PGSRow) (ops : List PGSWrite) : List PGSRow :=
  ops.foldl applyPGSWrite tbl

/-! ## Concrete sample data for evaluating the embedded queries -/

/-- A per-game stat row: player 1 with team 10 in game 1 (2 goals, 4 shots). -/
def pgsRowA : PGSRow := ⟨1, 1, 10, 2, 1, 3, 0, 0, 4, 0, 0, 600, 0, 0, 0, 0, 0, 0, 0, 0⟩

/-- A per-game stat row: the same player 1, now with team 20, in game 2
(3 goals, 5 shots) — a mid-season trade. -/
def pgsRowB : PGSRow := ⟨2, 1, 20, 3, 0, 3, 0, 2, 5, 0, 0, 700, 0, 0, 0, 0, 0, 0, 0, 0⟩

/-- A per-game stat row: player 7 with zero shots in game 1. -/
def pgsRowZeroShots : PGSRow := ⟨1, 7, 10, 0, 1, 1, 0, 0, 0, 0, 0, 300, 0, 0, 0, 0, 0, 0, 0, 0⟩

/-- A final game of season 20232024 with id 1. -/
def gameA : DBS.GameRow := ⟨1, "20232024", "02", none, some 10, some 20, 0, 0, 3, "Final", "Unknown"⟩

/-- A final game of season 20232024 with id 2. -/
def gameB : DBS.GameRow := ⟨2, "20232024", "02", none, some 20, some 10, 0, 0, 3, "Final", "Unknown"⟩

/-- A team-game-stat row for team 15 playing at home in game 1. -/
def tgsHomeLoss : DBS.TGSRow :=
  ⟨1, 15, true, 2, 1, 30, 10, 8, 4, 0, 2, 25, 50, 0, 0, 0, 0, 0, 0, 0, 0⟩

/-- Game 1: team 15 loses 2-3 at home in regulation (`period = 3`,
game_state 'Final'). -/
def gameHomeLoss : DBS.GameRow :=
  ⟨1, "20232024", "02", none, some 15, some 3, 2, 3, 3, "Final", "Capital One Arena"⟩

/-! ## Generic lemmas about the upsert executor -/

theorem upsert_idem {α κ : Type} [DecidableEq κ] (key : α → κ) (upd : α → α → α)
    (hk : ∀ t r, key (upd t r) = key t)
    (hu : ∀ t r, upd (upd t r) r = upd t r)
    (hrr : ∀ r, upd r r = r)
    (tbl : List α) (r : α) :
    upsert key upd (upsert key upd tbl r) r = upsert key upd tbl r := by
  unfold upsert
  by_cases h : tbl.any (fun t => decide (key t = key r)) = true
  · rw [if_pos h]
    have hany : (tbl.map fun t => if key t = key r then upd t r else t).any
        (fun t => decide (key t = key r)) = true := by
      rcases List.any_eq_true.1 h with ⟨x, hx, hpx⟩
      refine List.any_eq_true.2 ⟨_, List.mem_map_of_mem _ hx, ?_⟩
      by_cases hxk : key x = key r
      · rw [if_pos hxk]
        simpa [hk] using hpx
      · exact absurd (of_decide_eq_true hpx) hxk
    rw [if_pos hany, List.map_map]
    refine List.map_congr_left ?_
    intro t _
    by_cases ht : key t = key r
    · simp only [Function.comp_apply, if_pos ht]
      rw [if_pos (by rw [hk]; exact ht), hu]
    · simp only [Function.comp_apply, if_neg ht]
  · rw [if_neg h]
    have hall : ∀ t ∈ tbl, ¬ key t = key r := by
      intro t ht
      by_contra hc
      exact h (List.any_eq_true.2 ⟨t, ht, decide_eq_true hc⟩)
    have hany2 : (tbl ++ [r]).any (fun t => decide (key t = key r)) = true :=
      List.any_eq_true.2 ⟨r, by simp, decide_eq_true rfl⟩
    rw [if_pos hany2, List.map_append]
    have h1 : tbl.map (fun t => if key t = key r then upd t r else t) = tbl := by
      rw [show tbl.map (fun t => if key t = key r then upd t r else t) = tbl.map id from
        List.map_congr_left (fun t ht => by rw [if_neg (hall t ht)]; rfl), List.map_id]
    have h2 : [r].map (fun t => if key t = key r then upd t r else t) = [r] := by
      simp [hrr]
    rw [h1, h2]

theorem upsert_iterate {α κ : Type} [DecidableEq κ] (key : α → κ) (upd : α → α → α)
    (hk : ∀ t r, key (upd t r) = key t)
    (hu : ∀ t r, upd (upd t r) r = upd t r)
    (hrr : ∀ r, upd r r = r)
    (n : Nat) (tbl : List α) (r : α) :
    (fun t => upsert key upd t r)^[n + 1] tbl = upsert key upd tbl r := by
  induction n with
  | zero => simp
  | succ k ih =>
    rw [Function.iterate_succ_apply', ih]
    exact upsert_idem key upd hk hu hrr tbl r

theorem insertIfAbsent_idem {α κ : Type} [DecidableEq κ] (key : α → κ)
    (tbl : List α) (r : α) :
    insertIfAbsent key (insertIfAbsent key tbl r) r = insertIfAbsent key tbl r := by
  unfold insertIfAbsent
  by_cases h : tbl.any (fun t => decide (key t = key r)) = true
  · rw [if_pos h, if_pos h]
  · rw [if_neg h]
    have hany2 : (tbl ++ [r]).any (fun t => decide (key t = key r)) = true :=
      List.any_eq_true.2 ⟨r, by simp, decide_eq_true rfl⟩
    rw [if_pos hany2]

theorem insertIfAbsent_iterate {α κ : Type} [DecidableEq κ] (key : α → κ)
    (n : Nat) (tbl : List α) (r : α) :
    (fun t => insertIfAbsent key t r)^[n + 1] tbl = insertIfAbsent key tbl r := by
  induction n with
  | zero => simp
  | succ k ih =>
    rw [Function.iterate_succ_apply', ih]
    exact insertIfAbsent_idem key tbl r

theorem countKey_upsert_le {α κ : Type} [DecidableEq κ] (key : α → κ) (upd : α → α → α)
    (hk : ∀ t r, key (upd t r) = key t) (tbl : List α) (r : α) (k : κ)
    (hle : countKey key tbl k ≤ 1) : countKey key (upsert key upd tbl r) k ≤ 1 := by
  unfold upsert
  by_cases h : tbl.any (fun t => decide (key t = key r)) = true
  · rw [if_pos h]
    have : countKey key (tbl.map fun t => if key t = key r then upd t r else t) k
        = countKey key tbl k := by
      unfold countKey
      rw [List.countP_map]
      refine List.countP_congr ?_
      intro x _
      simp only [Function.comp_apply]
      by_cases hx : key x = key r
      · rw [if_pos hx, hk]
      · rw [if_neg hx]
    rw [this]; exact hle
  · rw [if_neg h]
    unfold countKey
    rw [List.countP_append]
    by_cases hr : key r = k
    · have hzero : tbl.countP (fun t => decide (key t = k)) = 0 := by
        rw [List.countP_eq_zero]
        intro x hx
        simp only [decide_eq_true_eq]
        intro hc
        exact h (List.any_eq_true.2 ⟨x, hx, decide_eq_true (by rw [hc, hr])⟩)
      simp [hzero, hr]
    · have : ([r]).countP (fun t => decide (key t = k)) = 0 := by
        simp [hr]
      rw [this]
      simpa using hle

theorem countKey_insertIfAbsent_le {α κ : Type} [DecidableEq κ] (key : α → κ)
    (tbl : List α) (r : α) (k : κ)
    (hle : countKey key tbl k ≤ 1) : countKey key (insertIfAbsent key tbl r) k ≤ 1 := by
  unfold insertIfAbsent
  by_cases h : tbl.any (fun t => decide (key t = key r)) = true
  · rw [if_pos h]; exact hle
  · rw [if_neg h]
    unfold countKey
    rw [List.countP_append]
    by_cases hr : key r = k
    · have hzero : tbl.countP (fun t => decide (key t = k)) = 0 := by
        rw [List.countP_eq_zero]
        intro x hx
        simp only [decide_eq_true_eq]
        intro hc
        exact h (List.any_eq_true.2 ⟨x, hx, decide_eq_true (by rw [hc, hr])⟩)
      simp [hzero, hr]
    · have : ([r]).countP (fun t => decide (key t = k)) = 0 := by
        simp [hr]
      rw [this]
      simpa using hle

theorem upsert_length {α κ : Type} [DecidableEq κ] (key : α → κ) (upd : α → α → α)
    (tbl : List α) (r : α) :
    (upsert key upd tbl r).length =
      if tbl.any (fun t => decide (key t = key r)) then tbl.length else tbl.length + 1 := by
  unfold upsert
  by_cases h : tbl.any (fun t => decide (key t = key r)) = true
  · rw [if_pos h, if_pos h, List.length_map]
  · rw [if_neg h, if_neg h, List.length_append, List.length_singleton]

theorem insertIfAbsent_length {α κ : Type} [DecidableEq κ] (key : α → κ)
    (tbl : List α) (r : α) :
    (insertIfAbsent key tbl r).length =
      if tbl.any (fun t => decide (key t = key r)) then tbl.length else tbl.length + 1 := by
  unfold insertIfAbsent
  by_cases h : tbl.any (fun t => decide (key t = key r)) = true
  · rw [if_pos h, if_pos h]
  · rw [if_neg h, if_neg h, List.length_append, List.length_singleton]

theorem countKey_runPGSWrites_le (ops : List PGSWrite) :
    ∀ tbl, (∀ k, countKey pgsKey tbl k ≤ 1) →
      ∀ k, countKey pgsKey (runPGSWrites tbl ops) k ≤ 1 := by
  induction ops with
  | nil => intro tbl h k; exact h k
  | cons op rest ih =>
      intro tbl h k
      have hstep : ∀ k2, countKey pgsKey (applyPGSWrite tbl op) k2 ≤ 1 := by
        intro k2
        cases op with
        | viaUpsert r =>
            exact countKey_upsert_le pgsKey DBS.updPGS (fun _ _ => rfl) tbl r k2 (h k2)
        | viaCheckInsert r =>
            exact countKey_insertIfAbsent_le pgsKey tbl r k2 (h k2)
      exact ih (applyPGSWrite tbl op) hstep k

/-! ## Claim theorems -/

/-- C1: performing the same upsert call N >= 1 times with identical input
values leaves the table — and hence the persisted row for each entity's
natural key — identical to its state after one call, for teams, players,
games and per-game stat rows (both the `ON CONFLICT DO UPDATE` and the
check-then-insert variant). -/
theorem repeated_identical_upserts_are_idempotent (n : Nat) :
    (∀ tbl s, (fun t => CDB.insertTeam t s)^[n + 1] tbl = CDB.insertTeam tbl s) ∧
    (∀ tbl p, (fun t => CDB.insertPlayer t p)^[n + 1] tbl = CDB.insertPlayer tbl p) ∧
    (∀ tbl g, (fun t => CDB.insertGame t g)^[n + 1] tbl = CDB.insertGame tbl g) ∧
    (∀ tbl r, (fun t => DBS.insertPlayerGameStats t r)^[n + 1] tbl
        = DBS.insertPlayerGameStats tbl r) ∧
    (∀ tbl r, (fun t => CDB.insertPlayerGameStat t r)^[n + 1] tbl
        = CDB.insertPlayerGameStat tbl r) := by
  refine ⟨fun tbl s => ?_, fun tbl p => ?_, fun tbl g => ?_,
    fun tbl r => ?_, fun tbl r => ?_⟩
  · exact upsert_iterate (fun t : TeamRow => t.id) CDB.updTeam
      (fun _ _ => rfl) (fun _ _ => rfl) (fun _ => rfl) n tbl (CDB.standingToTeamRow s)
  · exact upsert_iterate (fun t : PlayerRow => t.id) CDB.updPlayer
      (fun _ _ => rfl) (fun _ _ => rfl) (fun _ => rfl) n tbl (CDB.rawPlayerToRow p)
  · exact upsert_iterate (fun t : CDB.GameRow => t.id) CDB.updGame
      (fun _ _ => rfl) (fun _ _ => rfl) (fun _ => rfl) n tbl g
  · exact upsert_iterate pgsKey DBS.updPGS
      (fun _ _ => rfl) (fun _ _ => rfl) (fun _ => rfl) n tbl r
  · exact insertIfAbsent_iterate pgsKey n tbl r

/-- C3: starting from an empty store, after any sequence of backfill writes
against `player_game_stats` (either variant, any rows, any order) at most one
row exists per `(game_id, player_id)` pair; moreover each write leaves the row
count unchanged exactly when the pair was already present (the existing row is
updated in place, or left alone, rather than duplicated). -/
theorem player_game_stats_unique_per_pair :
    (∀ (ops : List PGSWrite) (k : Int × Int),
        countKey pgsKey (runPGSWrites [] ops) k ≤ 1) ∧
    (∀ tbl r, (DBS.insertPlayerGameStats tbl r).length =
        if tbl.any (fun t => decide (pgsKey t = pgsKey r)) then tbl.length
        else tbl.length + 1) ∧
    (∀ tbl r, (CDB.insertPlayerGameStat tbl r).length =
        if tbl.any (fun t => decide (pgsKey t = pgsKey r)) then tbl.length
        else tbl.length + 1) := by
  refine ⟨fun ops k => ?_, fun tbl r => ?_, fun tbl r => ?_⟩
  · exact countKey_runPGSWrites_le ops [] (fun k2 => by simp [countKey]) k
  · exact upsert_length pgsKey DBS.updPGS tbl r
  · exact insertIfAbsent_length pgsKey tbl r

/-- C9: running the test backfill pipeline on an empty store with seasons
`["20232024"]` leaves 32 teams, the 10 fallback Capitals players, and the 5
fallback sample games, with game 2024020500 at home_team_id 15, away_team_id
3, home_score 4, away_score 2.  (`startTestBackfill` performs no live fetch
at all, so the always-failing live-fetch path is satisfied vacuously, and it
takes no playoffs flag.) -/
theorem test_backfill_scenario_a :
    (CDB.startTestBackfill CDB.emptyStore ["20232024"]).teams.length = 32 ∧
    (CDB.startTestBackfill CDB.emptyStore ["20232024"]).players.length = 10 ∧
    (CDB.startTestBackfill CDB.emptyStore ["20232024"]).games.length = 5 ∧
    ((CDB.startTestBackfill CDB.emptyStore ["20232024"]).games.filter
        (fun g => decide (g.id = 2024020500))).map
        (fun g => (g.home_team_id, g.away_team_id, g.home_score, g.away_score))
      = [(some 15, some 3, 4, 2)] := by
  refine ⟨?_, ?_, ?_, ?_⟩ <;> rfl

/-- C5 counterexample: when the standings fetch succeeds but delivers a
present-and-empty `standings` array — zero usable rows — the empty array is
truthy in JavaScript, so the live branch runs, inserts nothing, and the
fallback is never invoked: the teams table stays empty instead of holding the
32 fallback rows (which the fallback path itself would produce). -/
theorem empty_standings_array_skips_fallback :
    CDB.backfillAllTeams [] (CDB.FetchStandings.standings []) = [] ∧
    (CDB.insertFallbackTeams []).length = 32 := by
  exact ⟨rfl, by rfl⟩

/-- C5 (amended): if the live team-fetch path throws or returns a body without
a `standings` field, then starting from an empty teams table the stage leaves
exactly the 32 fallback rows with the correct (id, abbreviation) pairs, in
particular id 15 paired with "WSH". -/
theorem fallback_teams_guarantee :
    ((CDB.backfillAllTeams [] CDB.FetchStandings.failed).map
        (fun t => (t.id, t.abbreviation))
      = [((1 : Int), "NJD"), (2, "NYI"), (3, "NYR"), (4, "PHI"), (5, "PIT"),
         (6, "BOS"), (7, "BUF"), (8, "MTL"), (9, "OTT"), (10, "TOR"),
         (12, "CAR"), (13, "FLA"), (14, "TBL"), (15, "WSH"), (16, "CHI"),
         (17, "DET"), (18, "NSH"), (19, "STL"), (20, "CGY"), (21, "COL"),
         (22, "EDM"), (23, "VAN"), (24, "ANA"), (25, "DAL"), (26, "LAK"),
         (27, "SJS"), (28, "CBJ"), (29, "MIN"), (30, "WPG"), (53, "ARI"),
         (54, "VGK"), (55, "SEA")]) ∧
    CDB.backfillAllTeams [] CDB.FetchStandings.noStandingsField
      = CDB.backfillAllTeams [] CDB.FetchStandings.failed ∧
    (CDB.backfillAllTeams [] CDB.FetchStandings.failed).length = 32 ∧
    ((15 : Int), "WSH") ∈ (CDB.backfillAllTeams [] CDB.FetchStandings.failed).map
        (fun t => (t.id, t.abbreviation)) := by
  refine ⟨by rfl, rfl, by rfl, by decide⟩

/-- C10: starting from a freshly constructed service (isRunning = false),
after any sequence of backfill invocations — each of which may resolve or
throw — the is-running flag is false again, and no invocation in the sequence
is ever rejected with the "already in progress" conflict: the `finally` block
clears the flag on success and failure alike. -/
theorem is_running_flag_always_cleared (os : List CDB.RunOutcome) :
    (CDB.runBackfillSequence false os).1 = false ∧
    ∀ r ∈ (CDB.runBackfillSequence false os).2,
      r ≠ CDB.EntryResult.rejectedAlreadyRunning := by
  induction os with
  | nil => exact ⟨rfl, by intro r h; cases h⟩
  | cons o rest ih =>
      have hstep : (CDB.backfillEntry false o).1 = false ∧
          (CDB.backfillEntry false o).2 ≠ CDB.EntryResult.rejectedAlreadyRunning := by
        cases o <;> simp [CDB.backfillEntry]
      have hseq : CDB.runBackfillSequence false (o :: rest)
          = ((CDB.runBackfillSequence (CDB.backfillEntry false o).1 rest).1,
             (CDB.backfillEntry false o).2
               :: (CDB.runBackfillSequence (CDB.backfillEntry false o).1 rest).2) := rfl
      constructor
      · rw [hseq]
        simpa [hstep.1] using ih.1
      · intro r hr
        rw [hseq] at hr
        rcases List.mem_cons.1 hr with h | h
        · rw [h]; exact hstep.2
        · rw [hstep.1] at h
          exact ih.2 r h

theorem runStage_foldl_mono (L : List (String × CDB.StageOutcome)) :
    ∀ p : CDB.Progress,
      (∀ x ∈ p.completed, x ∈ (L.foldl CDB.runStage p).completed) ∧
      (∀ x ∈ p.errors, x ∈ (L.foldl CDB.runStage p).errors) := by
  induction L with
  | nil => intro p; exact ⟨fun x hx => hx, fun x hx => hx⟩
  | cons a L ih =>
      intro p
      have hstep : (∀ x ∈ p.completed, x ∈ (CDB.runStage p a).completed) ∧
          (∀ x ∈ p.errors, x ∈ (CDB.runStage p a).errors) := by
        cases ha : a.2 <;>
          exact ⟨fun x hx => by simp [CDB.runStage, ha, hx],
                 fun x hx => by simp [CDB.runStage, ha, hx]⟩
      exact ⟨fun x hx => ((ih (CDB.runStage p a)).1 x (hstep.1 x hx)),
             fun x hx => ((ih (CDB.runStage p a)).2 x (hstep.2 x hx))⟩

theorem runStage_foldl_mem (L : List (String × CDB.StageOutcome)) :
    ∀ p : CDB.Progress, ∀ lbl o, (lbl, o) ∈ L →
      (o = CDB.StageOutcome.ok → lbl ∈ (L.foldl CDB.runStage p).completed) ∧
      (∀ m, o = CDB.StageOutcome.fail m →
        (lbl ++ ": " ++ m) ∈ (L.foldl CDB.runStage p).errors) := by
  induction L with
  | nil => intro p lbl o h; cases h
  | cons a L ih =>
      intro p lbl o h
      rcases List.mem_cons.1 h with h1 | h1
      · subst h1
        constructor
        · intro hok
          have hin : lbl ∈ (CDB.runStage p (lbl, o)).completed := by
            simp [CDB.runStage, hok]
          exact (runStage_foldl_mono L (CDB.runStage p (lbl, o))).1 lbl hin
        · intro m hm
          have hin : (lbl ++ ": " ++ m) ∈ (CDB.runStage p (lbl, o)).errors := by
            simp [CDB.runStage, hm]
          exact (runStage_foldl_mono L (CDB.runStage p (lbl, o))).2 _ hin
      · exact ih (CDB.runStage p a) lbl o h1

/-- C4: if the foundational teams stage does not abort the run, then no matter
which later stage bodies throw, the invocation itself does not throw, the
final report is generated, and for every (label, outcome) pair in the stage
sequence a throwing stage contributes its stage-identifying message to the
error list while every succeeding stage is still executed and recorded in the
completed list. -/
theorem stage_failure_does_not_abort_run (seasons : List String)
    (teams : CDB.TeamsOutcome) (outcomes : List CDB.StageOutcome)
    (hteams : ∀ m, teams ≠ CDB.TeamsOutcome.fatal m) :
    (CDB.startCompleteBackfill seasons teams outcomes).thrown = none ∧
    (CDB.startCompleteBackfill seasons teams outcomes).reportGenerated = true ∧
    ∀ lbl o, (lbl, o) ∈ (CDB.stageLabels seasons).zip outcomes →
      (o = CDB.StageOutcome.ok →
        lbl ∈ (CDB.startCompleteBackfill seasons teams outcomes).progress.completed) ∧
      (∀ m, o = CDB.StageOutcome.fail m →
        (lbl ++ ": " ++ m)
          ∈ (CDB.startCompleteBackfill seasons teams outcomes).progress.errors) := by
  cases teams with
  | fatal m => exact absurd rfl (hteams m)
  | liveOk =>
      refine ⟨rfl, rfl, ?_⟩
      intro lbl o h
      exact runStage_foldl_mem ((CDB.stageLabels seasons).zip outcomes)
        { errors := [], completed := ["All NHL teams"] } lbl o h
  | fallbackOk =>
      refine ⟨rfl, rfl, ?_⟩
      intro lbl o h
      exact runStage_foldl_mem ((CDB.stageLabels seasons).zip outcomes)
        { errors := [], completed := ["Teams (fallback)"] } lbl o h

/-- Witness for C4: a concrete run over one season whose games stage throws
`'network down'` while the rest succeed — the run does not throw, the report
is generated, the games-stage error message is recorded, and the subsequent
player-game-stats stage is still recorded as completed. -/
theorem stage_failure_does_not_abort_run_witness :
    (CDB.startCompleteBackfill ["20232024"] CDB.TeamsOutcome.liveOk
        [CDB.StageOutcome.ok, CDB.StageOutcome.fail "network down",
         CDB.StageOutcome.ok, CDB.StageOutcome.ok, CDB.StageOutcome.ok,
         CDB.StageOutcome.ok, CDB.StageOutcome.ok, CDB.StageOutcome.ok]).thrown = none ∧
    (CDB.startCompleteBackfill ["20232024"] CDB.TeamsOutcome.liveOk
        [CDB.StageOutcome.ok, CDB.StageOutcome.fail "network down",
         CDB.StageOutcome.ok, CDB.StageOutcome.ok, CDB.StageOutcome.ok,
         CDB.StageOutcome.ok, CDB.StageOutcome.ok, CDB.StageOutcome.ok]).reportGenerated
      = true ∧
    ("Games for 20232024" ++ ": " ++ "network down")
      ∈ (CDB.startCompleteBackfill ["20232024"] CDB.TeamsOutcome.liveOk
          [CDB.StageOutcome.ok, CDB.StageOutcome.fail "network down",
           CDB.StageOutcome.ok, CDB.StageOutcome.ok, CDB.StageOutcome.ok,
           CDB.StageOutcome.ok, CDB.StageOutcome.ok,
           CDB.StageOutcome.ok]).progress.errors ∧
    "Player game stats for 20232024"
      ∈ (CDB.startCompleteBackfill ["20232024"] CDB.TeamsOutcome.liveOk
          [CDB.StageOutcome.ok, CDB.StageOutcome.fail "network down",
           CDB.StageOutcome.ok, CDB.StageOutcome.ok, CDB.StageOutcome.ok,
           CDB.StageOutcome.ok, CDB.StageOutcome.ok,
           CDB.StageOutcome.ok]).progress.completed := by
  have h := stage_failure_does_not_abort_run ["20232024"] CDB.TeamsOutcome.liveOk
    [CDB.StageOutcome.ok, CDB.StageOutcome.fail "network down",
     CDB.StageOutcome.ok, CDB.StageOutcome.ok, CDB.StageOutcome.ok,
     CDB.StageOutcome.ok, CDB.StageOutcome.ok, CDB.StageOutcome.ok]
    (fun m hm => CDB.TeamsOutcome.noConfusion hm)
  refine ⟨h.1, h.2.1, ?_, ?_⟩
  · exact (h.2.2 "Games for 20232024" (CDB.StageOutcome.fail "network down")
      (by decide)).2 "network down" rfl
  · exact (h.2.2 "Player game stats for 20232024" CDB.StageOutcome.ok
      (by decide)).1 rfl

/-- C2 counterexample: player 1 has per-game rows with two different teams in
season 20232024 (2 goals with team 10, 3 goals with team 20, 5 in total), but
the aggregation groups by (player_id, team_id), so it emits two rows with
goals 2 and 3 — no season row for the player carries the total 5. -/
theorem player_season_stats_split_across_teams :
    ((DBS.calculatePlayerSeasonStats [pgsRowA, pgsRowB] [gameA, gameB] "20232024").map
        (fun r => (r.player_id, r.team_id, r.goals)))
      = [(1, 10, 2), (1, 20, 3)] ∧
    ((DBS.rowsInSeason [pgsRowA, pgsRowB] [gameA, gameB] "20232024").map
        (fun r => r.goals)).sum = 5 := by
  exact ⟨rfl, rfl⟩

/-- C2 (amended): every row emitted by the player season aggregation for a
season carries games_played equal to the number of that player's per-game
rows in the season with that row's team_id, and goals/assists/points/shots/
penalty_minutes equal to the corresponding sums over those rows (the SQL
groups by (player_id, team_id)); when all of the player's rows in the season
belong to a single team, the row's goals equal the sum over all of the
player's rows in the season. -/
theorem player_season_stats_aggregate_correct (pgs : List PGSRow)
    (games : List DBS.GameRow) (season : String) (r : DBS.PlayerSeasonRow)
    (hr : r ∈ DBS.calculatePlayerSeasonStats pgs games season) :
    (r.games_played
        = (DBS.groupRows (DBS.rowsInSeason pgs games season) r.player_id r.team_id).length
      ∧ r.goals = ((DBS.groupRows (DBS.rowsInSeason pgs games season) r.player_id
          r.team_id).map (fun x => x.goals)).sum
      ∧ r.assists = ((DBS.groupRows (DBS.rowsInSeason pgs games season) r.player_id
          r.team_id).map (fun x => x.assists)).sum
      ∧ r.points = ((DBS.groupRows (DBS.rowsInSeason pgs games season) r.player_id
          r.team_id).map (fun x => x.points)).sum
      ∧ r.shots = ((DBS.groupRows (DBS.rowsInSeason pgs games season) r.player_id
          r.team_id).map (fun x => x.shots)).sum
      ∧ r.penalty_minutes = ((DBS.groupRows (DBS.rowsInSeason pgs games season) r.player_id
          r.team_id).map (fun x => x.penalty_minutes)).sum) ∧
    ((∀ x ∈ DBS.rowsInSeason pgs games season,
        x.player_id = r.player_id → x.team_id = r.team_id) →
      r.goals = (((DBS.rowsInSeason pgs games season).filter
          (fun x => decide (x.player_id = r.player_id))).map (fun x => x.goals)).sum) := by
  rcases List.mem_map.1 hr with ⟨k, hk, hkeq⟩
  subst hkeq
  refine ⟨⟨rfl, rfl, rfl, rfl, rfl, rfl⟩, ?_⟩
  intro hsingle
  have hfe : DBS.groupRows (DBS.rowsInSeason pgs games season) k.1 k.2
      = (DBS.rowsInSeason pgs games season).filter (fun x => decide (x.player_id = k.1)) := by
    unfold DBS.groupRows
    refine List.filter_congr ?_
    intro x hx
    by_cases hp : x.player_id = k.1
    · have ht : x.team_id = k.2 := hsingle x hx hp
      simp [hp, ht]
    · simp [hp]
  show ((DBS.groupRows (DBS.rowsInSeason pgs games season) k.1 k.2).map
      (fun x => x.goals)).sum
    = (((DBS.rowsInSeason pgs games season).filter
        (fun x => decide (x.player_id = k.1))).map (fun x => x.goals)).sum
  rw [hfe]

/-- Witness for C2: a single-team player's emitted row sums its per-game rows
(player 1, one row with team 10 and 2 goals). -/
theorem player_season_stats_aggregate_correct_witness :
    (DBS.mkSeasonRow "20232024" 1 10
        (DBS.groupRows (DBS.rowsInSeason [pgsRowA] [gameA] "20232024") 1 10)
      ∈ DBS.calculatePlayerSeasonStats [pgsRowA] [gameA] "20232024") ∧
    (DBS.mkSeasonRow "20232024" 1 10
        (DBS.groupRows (DBS.rowsInSeason [pgsRowA] [gameA] "20232024") 1 10)).goals
      = ((DBS.groupRows (DBS.rowsInSeason [pgsRowA] [gameA] "20232024")
          (DBS.mkSeasonRow "20232024" 1 10
            (DBS.groupRows (DBS.rowsInSeason [pgsRowA] [gameA] "20232024") 1 10)).player_id
          (DBS.mkSeasonRow "20232024" 1 10
            (DBS.groupRows (DBS.rowsInSeason [pgsRowA] [gameA] "20232024") 1 10)).team_id).map
        (fun x => x.goals)).sum := by
  have hmem : DBS.mkSeasonRow "20232024" 1 10
      (DBS.groupRows (DBS.rowsInSeason [pgsRowA] [gameA] "20232024") 1 10)
      ∈ DBS.calculatePlayerSeasonStats [pgsRowA] [gameA] "20232024" := by
    have hkeys : DBS.groupKeys (DBS.rowsInSeason [pgsRowA] [gameA] "20232024")
        = [((1 : Int), (10 : Int))] := rfl
    show DBS.mkSeasonRow "20232024" 1 10
        (DBS.groupRows (DBS.rowsInSeason [pgsRowA] [gameA] "20232024") 1 10)
      ∈ (DBS.groupKeys (DBS.rowsInSeason [pgsRowA] [gameA] "20232024")).map
          (fun k => DBS.mkSeasonRow "20232024" k.1 k.2
            (DBS.groupRows (DBS.rowsInSeason [pgsRowA] [gameA] "20232024") k.1 k.2))
    rw [hkeys]
    exact List.mem_singleton.2 rfl
  exact ⟨hmem,
    (player_season_stats_aggregate_correct [pgsRowA] [gameA] "20232024" _ hmem).1.2.1⟩

/-- C6: every row written by the player season aggregation has
shooting_percentage exactly 0 when its shots total is 0 (an explicit zero
from the SQL CASE, not null and not a division failure), and
goals/shots*100 when shots > 0. -/
theorem shooting_percentage_boundary (pgs : List PGSRow)
    (games : List DBS.GameRow) (season : String) (r : DBS.PlayerSeasonRow)
    (hr : r ∈ DBS.calculatePlayerSeasonStats pgs games season) :
    (r.shots = 0 → r.shooting_percentage = 0) ∧
    (0 < r.shots → r.shooting_percentage = (r.goals : Rat) / (r.shots : Rat) * 100) := by
  rcases List.mem_map.1 hr with ⟨k, hk, hkeq⟩
  subst hkeq
  set rs := DBS.groupRows (DBS.rowsInSeason pgs games season) k.1 k.2 with hrs
  have hshots : (DBS.mkSeasonRow season k.1 k.2 rs).shots
      = (rs.map (fun x => x.shots)).sum := rfl
  have hgoals : (DBS.mkSeasonRow season k.1 k.2 rs).goals
      = (rs.map (fun x => x.goals)).sum := rfl
  have hsp : (DBS.mkSeasonRow season k.1 k.2 rs).shooting_percentage
      = if 0 < (rs.map (fun x => x.shots)).sum
        then ((((rs.map (fun x => x.goals)).sum : Int) : Rat)
          / (((rs.map (fun x => x.shots)).sum : Int) : Rat)) * 100
        else 0 := rfl
  constructor
  · intro h0
    rw [hshots] at h0
    rw [hsp, if_neg (by rw [h0]; exact lt_irrefl 0)]
  · intro hpos
    rw [hshots] at hpos
    rw [hsp, if_pos hpos, hgoals, hshots]

/-- Witness for C6: a player whose only per-game row has zero shots gets an
explicit shooting_percentage of 0. -/
theorem shooting_percentage_boundary_witness :
    (DBS.mkSeasonRow "20232024" 7 10
        (DBS.groupRows (DBS.rowsInSeason [pgsRowZeroShots] [gameA] "20232024") 7 10)
      ∈ DBS.calculatePlayerSeasonStats [pgsRowZeroShots] [gameA] "20232024") ∧
    (DBS.mkSeasonRow "20232024" 7 10
        (DBS.groupRows (DBS.rowsInSeason [pgsRowZeroShots] [gameA] "20232024") 7 10)).shots
      = 0 ∧
    (DBS.mkSeasonRow "20232024" 7 10
        (DBS.groupRows (DBS.rowsInSeason [pgsRowZeroShots] [gameA]
          "20232024") 7 10)).shooting_percentage = 0 := by
  have hmem : DBS.mkSeasonRow "20232024" 7 10
      (DBS.groupRows (DBS.rowsInSeason [pgsRowZeroShots] [gameA] "20232024") 7 10)
      ∈ DBS.calculatePlayerSeasonStats [pgsRowZeroShots] [gameA] "20232024" := by
    have hkeys : DBS.groupKeys (DBS.rowsInSeason [pgsRowZeroShots] [gameA] "20232024")
        = [((7 : Int), (10 : Int))] := rfl
    show DBS.mkSeasonRow "20232024" 7 10
        (DBS.groupRows (DBS.rowsInSeason [pgsRowZeroShots] [gameA] "20232024") 7 10)
      ∈ (DBS.groupKeys (DBS.rowsInSeason [pgsRowZeroShots] [gameA] "20232024")).map
          (fun k => DBS.mkSeasonRow "20232024" k.1 k.2
            (DBS.groupRows (DBS.rowsInSeason [pgsRowZeroShots] [gameA] "20232024") k.1 k.2))
    rw [hkeys]
    exact List.mem_singleton.2 rfl
  exact ⟨hmem, rfl,
    (shooting_percentage_boundary [pgsRowZeroShots] [gameA] "20232024" _ hmem).1 rfl⟩

/-- C7 (evaluation at the failing input): for a home regulation loss
(own score 2, opponent 3, period = 3, Final), the embedded record query
counts the game both as a loss and as an overtime loss, so the written row
gets points = 0 * 2 + 1 = 1 — SQL operator precedence attaches the
`period <= 3` / `period > 3` guards only to the away disjunct of the CASE
conditions, while a correct home/away-aware derivation would give
overtime_losses = 0 and points = 0 here. -/
theorem team_season_stats_home_regulation_loss :
    gameHomeLoss.period = 3 ∧
    (DBS.teamSeasonRecord [tgsHomeLoss] [gameHomeLoss] 15 "20232024").wins = 0 ∧
    (DBS.teamSeasonRecord [tgsHomeLoss] [gameHomeLoss] 15 "20232024").losses = 1 ∧
    (DBS.teamSeasonRecord [tgsHomeLoss] [gameHomeLoss] 15 "20232024").overtime_losses = 1 ∧
    (DBS.teamSeasonRowOf 15 "20232024"
        (DBS.teamSeasonRecord [tgsHomeLoss] [gameHomeLoss] 15 "20232024")).points = 1 ∧
    (DBS.teamSeasonRowOf 15 "20232024"
        (DBS.teamSeasonRecord [tgsHomeLoss] [gameHomeLoss] 15 "20232024")).goal_differential
      = (DBS.teamSeasonRecord [tgsHomeLoss] [gameHomeLoss] 15 "20232024").goals_for
        - (DBS.teamSeasonRecord [tgsHomeLoss] [gameHomeLoss] 15 "20232024").goals_against := by
  refine ⟨rfl, by decide, by decide, by decide, by decide, rfl⟩

/-- C8 counterexample: a present two-part time string with non-numeric parts
is parsed to NaN (`parseInt('aa') * 60 + parseInt('bb')`), not stored as 0. -/
theorem malformed_time_string_yields_nan :
    parseTimeToSeconds (some "aa:bb") = JSNum.nan ∧ JSNum.nan ≠ JSNum.val 0 := by
  exact ⟨by decide, by decide⟩

/-- C8 (amended): a missing time string is stored as 0, a string not of the
two-part `MM:SS` shape is stored as 0, a two-part string whose parts parse as
integers is stored as a number (never NaN) — but a two-part string with a
non-numeric part produces NaN; and the `|| 0` defaulting of count fields
never stores NaN. -/
theorem numeric_defaulting_policy (t : Option String)
    (h : timeFieldUsable t = true) :
    parseTimeToSeconds t ≠ JSNum.nan ∧
    (t = none → parseTimeToSeconds t = JSNum.val 0) ∧
    (∀ x : Option JSNum, orZero x ≠ JSNum.nan) := by
  refine ⟨?_, ?_, ?_⟩
  · cases t with
    | none => simp [parseTimeToSeconds]
    | some s =>
        have h2 : (match jsSplit s ':' with
            | [m, sec] => !(decide (parseIntJS m = JSNum.nan))
                && !(decide (parseIntJS sec = JSNum.nan))
            | _ => true) = true := h
        show (match jsSplit s ':' with
            | [m, sec] => jsAdd (jsMul (parseIntJS m) (JSNum.val 60)) (parseIntJS sec)
            | _ => JSNum.val 0) ≠ JSNum.nan
        cases hs : jsSplit s ':' with
        | nil => simp
        | cons m rest =>
            cases rest with
            | nil => simp
            | cons sec rest2 =>
                cases rest2 with
                | nil =>
                    rw [hs] at h2
                    simp only [Bool.and_eq_true, Bool.not_eq_true',
                      decide_eq_false_iff_not] at h2
                    rcases h2 with ⟨hm, hsec⟩
                    cases hm2 : parseIntJS m with
                    | nan => exact absurd hm2 hm
                    | val a =>
                        cases hs2 : parseIntJS sec with
                        | nan => exact absurd hs2 hsec
                        | val b => simp [jsAdd, jsMul, hm2, hs2]
                | cons c rest3 => simp
  · intro ht
    subst ht
    rfl
  · intro x
    cases x with
    | none => simp [orZero]
    | some v =>
        cases v with
        | nan => simp [orZero]
        | val n =>
            show (if n = 0 then JSNum.val 0 else JSNum.val n) ≠ JSNum.nan
            by_cases hn : n = 0
            · rw [if_pos hn]; simp
            · rw [if_neg hn]; simp

/-- Witness for C8: the well-formed time string `'12:34'` and the missing
string both avoid NaN. -/
theorem numeric_defaulting_policy_witness :
    timeFieldUsable (some "12:34") = true ∧
    parseTimeToSeconds (some "12:34") ≠ JSNum.nan ∧
    timeFieldUsable (none : Option String) = true ∧
    parseTimeToSeconds (none : Option String) = JSNum.val 0 := by
  refine ⟨by decide, (numeric_defaulting_policy (some "12:34") (by decide)).1,
    by decide, (numeric_defaulting_policy none (by decide)).2.1 rfl⟩

end CapStats
